import Mathlib

/-!
Shallow embedding of the aggregation and narration layers of the
Automated-Financial-Report-Generator repository
(`src/financial_report.py` and `src/gpt_summary.py`).

Modelling conventions:
* pandas float64 values are modelled as exact rationals (`ℚ`); the float
  special values NaN and ±inf get their own constructors in `Cell`.
  Floating-point rounding error is outside the model.
* `Series.round(2)` rounds half away from zero (`roundQ`); binary floats
  round half to even, but the two agree except on exact `.xx5` ties,
  which no theorem below touches.
* `Series.std` takes a square root; it is modelled by `Rat.sqrt`, which is
  exact on perfect squares.  Every theorem below evaluates a standard
  deviation only when it is `0` or undefined, where the model is exact.
* a pandas `DataFrame` is a list of column names plus a list of rows;
  pandas tables are always rectangular (`DataFrame.WF`).
* datetime columns (the loader's parsed `Date` column) are outside the
  model; `Cell.str` covers every non-numeric entry the theorems need.
* Python exceptions are modelled by `Err`: `KeyError` on a column access
  is the spec's MissingColumnError; the `ValueError`/`TypeError` raised
  for a bad ranking metric are the spec's InvalidMetricError.
-/

namespace FinReport

/-- Round half away from zero: `roundQ q = ⌊q + 1/2⌋` computed on the raw
numerator/denominator so that it evaluates by `decide`. -/
def roundQ (q : ℚ) : ℤ := Int.fdiv (2 * q.num + q.den) (2 * q.den)

/-- `Series.round(2)`: round to two decimal places. -/
def round2 (q : ℚ) : ℚ := (roundQ (q * 100) : ℚ) / 100

/-- One value of a pandas column: a string, a finite float (modelled as an
exact rational), NaN, or a signed infinity. -/
inductive Cell where
  | str (s : String)
  | num (q : ℚ)
  | nan
  | inf (pos : Bool)
deriving DecidableEq, Repr

/-- Whether a cell is a string; a column containing one has object dtype. -/
def Cell.isStr : Cell → Bool
  | .str _ => true
  | _ => false

/-- The finite numeric entries of a column, in order.  NaN entries are
skipped, matching pandas' default `skipna=True`. -/
def numsOf (l : List Cell) : List ℚ :=
  l.filterMap fun c => match c with | .num q => some q | _ => none

/-- `Series.sum`: sum of the non-NaN numeric entries (empty sum is 0). -/
def csum (l : List Cell) : Cell := .num (numsOf l).sum

/-- `Series.mean`: mean of the non-NaN numeric entries; NaN when there are
none. -/
def cmean (l : List Cell) : Cell :=
  let ns := numsOf l
  if ns.isEmpty then .nan else .num (ns.sum / ns.length)

/-- Sample variance with `ddof = 1` (pandas default) of a list of
rationals; meaningful only for two or more entries. -/
def sampleVar (ns : List ℚ) : ℚ :=
  let μ := ns.sum / ns.length
  (ns.map fun x => (x - μ) ^ 2).sum / ((ns.length : ℚ) - 1)

/-- `Series.std`: NaN for fewer than two non-NaN entries, else the square
root of the sample variance (square root modelled by `Rat.sqrt`). -/
def cstd (l : List Cell) : Cell :=
  let ns := numsOf l
  if ns.length ≤ 1 then .nan else .num (Rat.sqrt (sampleVar ns))

/-- Float division of two cells, with IEEE-754 conventions for zero
denominators, NaN and infinities.  String operands make pandas raise; they
never occur under the hypotheses of the theorems below and map to NaN. -/
def cdiv : Cell → Cell → Cell
  | .nan, _ => .nan
  | .str _, _ => .nan
  | _, .nan => .nan
  | _, .str _ => .nan
  | .num a, .num b =>
      if b = 0 then (if a = 0 then .nan else .inf (decide (0 < a)))
      else .num (a / b)
  | .num _, .inf _ => .num 0
  | .inf p, .num b => .inf (p = decide (0 ≤ b))
  | .inf _, .inf _ => .nan

/-- Float subtraction of two cells. -/
def csub : Cell → Cell → Cell
  | .nan, _ => .nan
  | .str _, _ => .nan
  | _, .nan => .nan
  | _, .str _ => .nan
  | .num a, .num b => .num (a - b)
  | .inf p, .num _ => .inf p
  | .num _, .inf p => .inf (!p)
  | .inf p, .inf q => if p = q then .nan else .inf p

/-- Float absolute value of a cell. -/
def cabs : Cell → Cell
  | .num a => .num |a|
  | .inf _ => .inf true
  | .nan => .nan
  | .str s => .str s

/-- Multiply a cell by a positive rational constant (only used with 100). -/
def cmulQ (c : Cell) (k : ℚ) : Cell :=
  match c with
  | .num a => .num (a * k)
  | .inf p => .inf p
  | .nan => .nan
  | .str s => .str s

/-- `Series.round(2)` applied to one cell; non-numeric cells pass through
unchanged (`DataFrame.round` skips object columns). -/
def cround2 : Cell → Cell
  | .num a => .num (round2 a)
  | c => c

/-- Strict comparison `cell > t` as pandas evaluates it: NaN compares
false, `+inf` true, `-inf` false. -/
def cgt (c : Cell) (t : ℚ) : Bool :=
  match c with
  | .num a => decide (t < a)
  | .inf p => p
  | _ => false

/-- Strict comparison `cell < t`: NaN compares false. -/
def clt (c : Cell) (t : ℚ) : Bool :=
  match c with
  | .num a => decide (a < t)
  | .inf p => !p
  | _ => false

/-- `Series.nunique`: number of distinct non-NaN values. -/
def cnunique (l : List Cell) : Nat :=
  ((l.filter fun c => c ≠ Cell.nan).dedup).length

/-- `Series.count` (used by the `'count'` aggregator): non-NaN entries. -/
def ccount (l : List Cell) : Nat :=
  (l.filter fun c => c ≠ Cell.nan).length

/-! ### DataFrame -/

/-- An in-memory table: column names plus rows of cells. -/
structure DataFrame where
  columns : List String
  rows : List (List Cell)
deriving DecidableEq, Repr

/-- Index of a column name in a header (first occurrence). -/
def colIdx : List String → String → Option Nat
  | [], _ => none
  | c :: cs, name => if c = name then some 0 else (colIdx cs name).map (· + 1)

/-- Membership test for a column name. -/
def DataFrame.hasCol (df : DataFrame) (name : String) : Bool :=
  (colIdx df.columns name).isSome

/-- `df[name]`: the named column as a list of cells, or `none` (a Python
`KeyError`) when the name is absent. -/
def DataFrame.col (df : DataFrame) (name : String) : Option (List Cell) :=
  (colIdx df.columns name).map fun i => df.rows.map fun r => r.getD i Cell.nan

/-- `df[name] = vals`: replace the named column, or append a new one. -/
def DataFrame.setCol (df : DataFrame) (name : String) (vals : List Cell) :
    DataFrame :=
  match colIdx df.columns name with
  | some i => ⟨df.columns, (df.rows.zip vals).map fun p => p.1.set i p.2⟩
  | none => ⟨df.columns ++ [name], (df.rows.zip vals).map fun p => p.1 ++ [p.2]⟩

/-- Rectangularity: every row has one cell per column.  pandas tables are
always of this shape. -/
def DataFrame.WF (df : DataFrame) : Prop :=
  ∀ r ∈ df.rows, r.length = df.columns.length

/-! ### Basic lemmas about column access -/

theorem colIdx_eq_none_iff {cs : List String} {name : String} :
    colIdx cs name = none ↔ name ∉ cs := by
  induction cs with
  | nil => simp [colIdx]
  | cons c cs ih =>
    simp only [colIdx, List.mem_cons]
    by_cases h : c = name
    · simp [h]
    · rw [if_neg h, Option.map_eq_none', ih, not_or]
      constructor
      · exact fun hn => ⟨fun he => h he.symm, hn⟩
      · exact fun hn => hn.2

theorem colIdx_isSome_iff {cs : List String} {name : String} :
    (colIdx cs name).isSome ↔ name ∈ cs := by
  rw [Option.isSome_iff_ne_none, ne_eq, colIdx_eq_none_iff, not_not]

theorem colIdx_get {cs : List String} {name : String} {i : Nat}
    (h : colIdx cs name = some i) :
    ∃ hi : i < cs.length, cs.get ⟨i, hi⟩ = name := by
  induction cs generalizing i with
  | nil => simp [colIdx] at h
  | cons c cs ih =>
    by_cases hc : c = name
    · simp [colIdx, hc] at h
      subst h
      exact ⟨Nat.succ_pos _, hc⟩
    · simp [colIdx, hc] at h
      obtain ⟨j, hj, rfl⟩ := h
      obtain ⟨hlt, hget⟩ := ih hj
      exact ⟨Nat.succ_lt_succ hlt, hget⟩

theorem colIdx_lt_length {cs : List String} {name : String} {i : Nat}
    (h : colIdx cs name = some i) : i < cs.length :=
  (colIdx_get h).1

theorem colIdx_inj {cs : List String} {n1 n2 : String} {i1 i2 : Nat}
    (h1 : colIdx cs n1 = some i1) (h2 : colIdx cs n2 = some i2)
    (hne : n1 ≠ n2) : i1 ≠ i2 := by
  intro hi
  obtain ⟨l1, g1⟩ := colIdx_get h1
  obtain ⟨l2, g2⟩ := colIdx_get h2
  subst hi
  exact hne (g1 ▸ g2 ▸ rfl)

theorem colIdx_append_of_isSome {cs ds : List String} {name : String}
    {i : Nat} (h : colIdx cs name = some i) :
    colIdx (cs ++ ds) name = some i := by
  induction cs generalizing i with
  | nil => simp [colIdx] at h
  | cons c cs ih =>
    by_cases hc : c = name
    · simp [colIdx, hc] at h ⊢
      exact h
    · simp [colIdx, hc] at h ⊢
      obtain ⟨j, hj, rfl⟩ := h
      exact ⟨j, ih hj, rfl⟩

theorem colIdx_append_single_of_none {cs : List String} {name d : String}
    (h : colIdx cs name = none) (hne : d ≠ name) :
    colIdx (cs ++ [d]) name = none := by
  induction cs with
  | nil => simp [colIdx, hne]
  | cons c cs ih =>
    by_cases hc : c = name
    · simp [colIdx, hc] at h
    · simp [colIdx, hc, Option.map_eq_none'] at h ⊢
      exact ih h

theorem col_length {df : DataFrame} {name : String} {l : List Cell}
    (h : df.col name = some l) : l.length = df.rows.length := by
  unfold DataFrame.col at h
  obtain ⟨i, hi, rfl⟩ := Option.map_eq_some'.1 h
  simp

theorem col_isSome_iff {df : DataFrame} {name : String} :
    (df.col name).isSome ↔ name ∈ df.columns := by
  unfold DataFrame.col
  rw [Option.isSome_map']
  exact colIdx_isSome_iff

theorem col_eq_none_iff {df : DataFrame} {name : String} :
    df.col name = none ↔ name ∉ df.columns := by
  unfold DataFrame.col
  rw [Option.map_eq_none', colIdx_eq_none_iff]

theorem hasCol_iff {df : DataFrame} {name : String} :
    df.hasCol name = true ↔ name ∈ df.columns := by
  unfold DataFrame.hasCol
  exact colIdx_isSome_iff

/-- Unfolding equation for `setCol` when the column already exists. -/
theorem setCol_eq_of_idx_some {df : DataFrame} {name : String}
    {vals : List Cell} {i : Nat} (h : colIdx df.columns name = some i) :
    df.setCol name vals =
      ⟨df.columns, (df.rows.zip vals).map fun p => p.1.set i p.2⟩ := by
  unfold DataFrame.setCol
  rw [h]

/-- Unfolding equation for `setCol` when the column is new. -/
theorem setCol_eq_of_idx_none {df : DataFrame} {name : String}
    {vals : List Cell} (h : colIdx df.columns name = none) :
    df.setCol name vals =
      ⟨df.columns ++ [name], (df.rows.zip vals).map fun p => p.1 ++ [p.2]⟩ := by
  unfold DataFrame.setCol
  rw [h]

/-- Columns after `setCol` of a fresh name: the name is appended. -/
theorem setCol_columns_of_not_mem {df : DataFrame} {name : String}
    {vals : List Cell} (h : name ∉ df.columns) :
    (df.setCol name vals).columns = df.columns ++ [name] := by
  rw [setCol_eq_of_idx_none (colIdx_eq_none_iff.2 h)]

/-- Rectangularity is preserved by `setCol` with a full-length column. -/
theorem WF_setCol {df : DataFrame} {name : String} {vals : List Cell}
    (hw : df.WF) (_hl : vals.length = df.rows.length) :
    (df.setCol name vals).WF := by
  cases hidx : colIdx df.columns name with
  | some i =>
    rw [setCol_eq_of_idx_some hidx]
    intro r hr
    simp only [List.mem_map] at hr
    obtain ⟨⟨a, b⟩, hab, rfl⟩ := hr
    have := hw a (List.of_mem_zip hab).1
    simp [this]
  | none =>
    rw [setCol_eq_of_idx_none hidx]
    intro r hr
    simp only [List.mem_map] at hr
    obtain ⟨⟨a, b⟩, hab, rfl⟩ := hr
    have := hw a (List.of_mem_zip hab).1
    simp [this]

theorem getD_set_ne {r : List Cell} {i j : Nat} (h : i ≠ j) (v d : Cell) :
    (r.set i v).getD j d = r.getD j d := by
  simp only [List.getD_eq_getElem?_getD]
  rw [List.getElem?_set_ne h]

theorem map_getD_zip_set (i1 i2 : Nat) (hii : i2 ≠ i1) :
    ∀ (rows : List (List Cell)) (vals : List Cell),
      rows.length = vals.length →
      ((rows.zip vals).map fun p => p.1.set i2 p.2).map
          (fun r => r.getD i1 Cell.nan) =
        rows.map fun r => r.getD i1 Cell.nan
  | [], _, _ => by simp
  | r :: rows, [], h => by simp at h
  | r :: rows, v :: vals, h => by
    simp only [List.zip_cons_cons, List.map_cons]
    rw [getD_set_ne hii, map_getD_zip_set i1 i2 hii rows vals (by simpa using h)]

theorem map_getD_zip_append (i1 : Nat) :
    ∀ (rows : List (List Cell)) (vals : List Cell),
      rows.length = vals.length →
      (∀ r ∈ rows, i1 < r.length) →
      ((rows.zip vals).map fun p => p.1 ++ [p.2]).map
          (fun r => r.getD i1 Cell.nan) =
        rows.map fun r => r.getD i1 Cell.nan
  | [], _, _, _ => by simp
  | r :: rows, [], h, _ => by simp at h
  | r :: rows, v :: vals, h, hlt => by
    simp only [List.zip_cons_cons, List.map_cons]
    rw [List.getD_append _ _ _ _ (hlt r (List.mem_cons_self r rows)),
      map_getD_zip_append i1 rows vals (by simpa using h)
        (fun x hx => hlt x (List.mem_cons_of_mem r hx))]

/-- Reading a different column is unaffected by `setCol`. -/
theorem col_setCol_ne {df : DataFrame} {n1 n2 : String} {vals : List Cell}
    (hw : df.WF) (hl : vals.length = df.rows.length) (hne : n1 ≠ n2) :
    (df.setCol n2 vals).col n1 = df.col n1 := by
  cases hidx : colIdx df.columns n2 with
  | some i2 =>
    rw [setCol_eq_of_idx_some hidx]
    unfold DataFrame.col
    cases hidx1 : colIdx df.columns n1 with
    | none => rfl
    | some i1 =>
      simp only [Option.map_some', Option.some.injEq]
      exact map_getD_zip_set i1 i2 (colIdx_inj hidx hidx1 fun h => hne h.symm)
        df.rows vals hl.symm
  | none =>
    rw [setCol_eq_of_idx_none hidx]
    unfold DataFrame.col
    cases hidx1 : colIdx df.columns n1 with
    | none =>
      rw [colIdx_append_single_of_none hidx1 (fun h => hne h.symm)]
      rfl
    | some i1 =>
      rw [colIdx_append_of_isSome hidx1]
      simp only [Option.map_some', Option.some.injEq]
      exact map_getD_zip_append i1 df.rows vals hl.symm
        (fun r hr => by rw [hw r hr]; exact colIdx_lt_length hidx1)

/-! ### Errors and result records -/

/-- Python exceptions raised by the aggregator, by exception class.
`keyError` is raised by a column access with the offending column name;
it realises the spec's MissingColumnError.  `valueError` and `typeError`
realise the spec's InvalidMetricError (metric absent / metric present but
of object dtype). -/
inductive Err where
  | keyError (column : String)
  | valueError (msg : String)
  | typeError (column : String)
deriving DecidableEq, Repr

/-- The spec's MissingColumnError: a `KeyError` naming a column. -/
def Err.isMissingColumn : Err → Bool
  | .keyError _ => true
  | _ => false

/-- The spec's InvalidMetricError: either exception `identify_top_performers`
raises for a bad ranking metric. -/
def Err.isInvalidMetric : Err → Bool
  | .valueError _ => true
  | .typeError _ => true
  | _ => false

/-- Result of `generate_basic_report` (`financial_report.py` lines 54-73).
The optional Market_Cap block holds `(sum, mean, std)` when the column is
present. -/
structure BasicSummary where
  total_companies : Nat
  total_revenue : Cell
  total_expenses : Cell
  total_net_income : Cell
  average_revenue : Cell
  average_expenses : Cell
  average_net_income : Cell
  revenue_std : Cell
  profit_margin_avg : Cell
  expense_ratio_avg : Cell
  market_cap_stats : Option (Cell × Cell × Cell)
deriving DecidableEq, Repr

/-- One row of the frame returned by `get_company_insights`
(`financial_report.py` lines 84-104), after `reset_index`. -/
structure CompanyRow where
  company : Cell
  revenue_sum : Cell
  revenue_mean : Cell
  expenses_sum : Cell
  expenses_mean : Cell
  net_income_sum : Cell
  net_income_mean : Cell
  market_cap : Cell
  profit_margin : Cell
  expense_ratio : Cell
deriving DecidableEq, Repr

/-- One row of the frame returned by `get_sector_analysis`
(`financial_report.py` lines 111-126). -/
structure SectorRow where
  sector : Cell
  revenue_sum : Cell
  revenue_mean : Cell
  revenue_count : Nat
  net_income_sum : Cell
  net_income_mean : Cell
  market_cap_sum : Cell
  avg_profit_margin : Cell
deriving DecidableEq, Repr

/-- One row of the frame returned by `identify_top_performers`
(`financial_report.py` lines 136-145). -/
structure TopRow where
  company : Cell
  revenue : Cell
  expenses : Cell
  net_income : Cell
  sector : Cell
  profit_margin : Cell
deriving DecidableEq, Repr

/-- Result of `generate_risk_assessment` (`financial_report.py`
lines 159-169). -/
structure RiskAssessment where
  high_debt_companies : Nat
  low_profit_margin_companies : Nat
  average_volatility : Cell
  companies_at_risk : List Cell
deriving DecidableEq, Repr

/-! ### groupby machinery -/

/-- Lexicographic comparison of strings by character code (the order
pandas sorts string group keys in). -/
def charsLE : List Char → List Char → Bool
  | [], _ => true
  | _ :: _, [] => false
  | a :: as, b :: bs =>
    if a.toNat < b.toNat then true
    else if b.toNat < a.toNat then false
    else charsLE as bs

/-- Comparison used to sort group keys.  Group keys of one column share a
dtype, so only the same-constructor cases ever arise. -/
def cellKeyLE : Cell → Cell → Bool
  | .str a, .str b => charsLE a.data b.data
  | .num a, .num b => decide (a ≤ b)
  | _, _ => true

/-- Stable insertion into a sorted list. -/
def insortBy (le : α → α → Bool) (a : α) : List α → List α
  | [] => [a]
  | b :: bs => if le a b then a :: b :: bs else b :: insortBy le a bs

/-- Stable insertion sort (structural recursion, so it evaluates inside
the kernel). -/
def sortBy (le : α → α → Bool) : List α → List α
  | [] => []
  | a :: as => insortBy le a (sortBy le as)

/-- The group keys of `groupby(column)`: distinct non-NaN values, sorted
ascending (pandas `sort=True` default). -/
def groupKeys (l : List Cell) : List Cell :=
  sortBy cellKeyLE ((l.filter fun c => decide (c ≠ Cell.nan)).dedup)

/-- The entries of `vals` whose row has key `k` in `keyCol`: one group's
worth of one aggregated column. -/
def selectBy (keyCol : List Cell) (k : Cell) (vals : List Cell) :
    List Cell :=
  ((keyCol.zip vals).filter fun p => decide (p.1 = k)).map fun p => p.2

/-! ### The aggregator methods

Each Python method is translated as an explicit state transformer
`DataFrame → Except Err (result × DataFrame)`: the returned `DataFrame`
is the value of `self.data` after the call.  The `self.data is None`
guard at the top of every method is outside the model — every claim
quantifies over loaded tables.  The loader itself (`load_data`) is also
outside: theorems quantify over the table it produced. -/

/-- `generate_basic_report` (`financial_report.py` lines 48-76).  The
dict literal evaluates its values in source order, so the first missing
required column (in the order Company, Revenue, Expenses, Net_Income)
raises the `KeyError`. -/
def generate_basic_report (df : DataFrame) :
    Except Err (BasicSummary × DataFrame) :=
  match df.col "Company" with
  | none => .error (.keyError "Company")
  | some comp =>
    match df.col "Revenue" with
    | none => .error (.keyError "Revenue")
    | some rev =>
      match df.col "Expenses" with
      | none => .error (.keyError "Expenses")
      | some exps =>
        match df.col "Net_Income" with
        | none => .error (.keyError "Net_Income")
        | some ni =>
          .ok ({ total_companies := cnunique comp
                 total_revenue := csum rev
                 total_expenses := csum exps
                 total_net_income := csum ni
                 average_revenue := cmean rev
                 average_expenses := cmean exps
                 average_net_income := cmean ni
                 revenue_std := cstd rev
                 profit_margin_avg := cmulQ (cmean (List.zipWith cdiv ni rev)) 100
                 expense_ratio_avg := cmulQ (cmean (List.zipWith cdiv exps rev)) 100
                 market_cap_stats :=
                   match df.col "Market_Cap" with
                   | some mc => some (csum mc, cmean mc, cstd mc)
                   | none => none }, df)

/-- One output row of `get_company_insights` for group key `k`.  The
`.agg(...).round(2)` rounds every aggregated column *before* the two
ratios are derived from the already-rounded sums. -/
def companyRowFor (comp rev exps ni mc : List Cell) (k : Cell) :
    CompanyRow :=
  let rv := selectBy comp k rev
  let ev := selectBy comp k exps
  let nv := selectBy comp k ni
  let mv := selectBy comp k mc
  let revenue_sum := cround2 (csum rv)
  let net_income_sum := cround2 (csum nv)
  let expenses_sum := cround2 (csum ev)
  { company := k
    revenue_sum := revenue_sum
    revenue_mean := cround2 (cmean rv)
    expenses_sum := expenses_sum
    expenses_mean := cround2 (cmean ev)
    net_income_sum := net_income_sum
    net_income_mean := cround2 (cmean nv)
    market_cap := cround2 (cmean mv)
    profit_margin := cround2 (cmulQ (cdiv net_income_sum revenue_sum) 100)
    expense_ratio := cround2 (cmulQ (cdiv expenses_sum revenue_sum) 100) }

/-- `get_company_insights` (`financial_report.py` lines 78-104).  The
`.agg` dict always contains the key `'Market_Cap'` — the conditional only
switches the aggregation function — so pandas raises a `KeyError` for the
whole call whenever the `Market_Cap` column is absent, even though the
chosen fallback aggregator (`lambda x: 0`) suggests absence was meant to
be tolerated. -/
def get_company_insights (df : DataFrame) :
    Except Err (List CompanyRow × DataFrame) :=
  match df.col "Company" with
  | none => .error (.keyError "Company")
  | some comp =>
    match df.col "Revenue" with
    | none => .error (.keyError "Revenue")
    | some rev =>
      match df.col "Expenses" with
      | none => .error (.keyError "Expenses")
      | some exps =>
        match df.col "Net_Income" with
        | none => .error (.keyError "Net_Income")
        | some ni =>
          match df.col "Market_Cap" with
          | none => .error (.keyError "Market_Cap")
          | some mc =>
            .ok ((groupKeys comp).map (companyRowFor comp rev exps ni mc), df)

/-- One output row of `get_sector_analysis` for group key `k`; the
`Avg_Profit_Margin` is likewise derived from already-rounded sums. -/
def sectorRowFor (sec rev ni mc : List Cell) (k : Cell) : SectorRow :=
  let rv := selectBy sec k rev
  let nv := selectBy sec k ni
  let mv := selectBy sec k mc
  let revenue_sum := cround2 (csum rv)
  let net_income_sum := cround2 (csum nv)
  { sector := k
    revenue_sum := revenue_sum
    revenue_mean := cround2 (cmean rv)
    revenue_count := ccount rv
    net_income_sum := net_income_sum
    net_income_mean := cround2 (cmean nv)
    market_cap_sum := cround2 (csum mv)
    avg_profit_margin := cround2 (cmulQ (cdiv net_income_sum revenue_sum) 100) }

/-- `get_sector_analysis` (`financial_report.py` lines 106-126): an empty
frame when no `Sector` column exists, otherwise a groupby over `Sector`
(with the same unconditional `'Market_Cap'` agg key as
`get_company_insights`). -/
def get_sector_analysis (df : DataFrame) :
    Except Err (List SectorRow × DataFrame) :=
  match df.col "Sector" with
  | none => .ok ([], df)
  | some sec =>
    match df.col "Revenue" with
    | none => .error (.keyError "Revenue")
    | some rev =>
      match df.col "Net_Income" with
      | none => .error (.keyError "Net_Income")
      | some ni =>
        match df.col "Market_Cap" with
        | none => .error (.keyError "Market_Cap")
        | some mc =>
          .ok ((groupKeys sec).map (sectorRowFor sec rev ni mc), df)

/-- Descending comparison on metric cells used by `nlargest`; rows with
equal metric keep their original order (`keep='first'`). -/
def cellGE : Cell → Cell → Bool
  | .num a, .num b => decide (b ≤ a)
  | .str _, _ => false
  | _, .str _ => false
  | .nan, _ => false
  | _, .nan => true
  | .inf p, .num _ => p
  | .num _, .inf p => !p
  | .inf p, .inf q => p || !q

/-- `identify_top_performers` (`financial_report.py` lines 128-145).
An absent metric raises `ValueError`; a present metric of object dtype
makes `nlargest` raise `TypeError`; then the five-column selection
raises `KeyError` on its first missing name (notably `Sector`, the one
selected column that is not otherwise required). -/
def identify_top_performers (df : DataFrame) (metric : String)
    (top_n : Nat) : Except Err (List TopRow × DataFrame) :=
  match colIdx df.columns metric with
  | none => .error (.valueError ("Metric " ++ metric ++ " not found in data columns."))
  | some mi =>
    if (df.rows.map fun r => r.getD mi Cell.nan).any Cell.isStr then
      .error (.typeError metric)
    else
      match colIdx df.columns "Company", colIdx df.columns "Revenue",
          colIdx df.columns "Expenses", colIdx df.columns "Net_Income",
          colIdx df.columns "Sector" with
      | some ci, some ri, some ei, some nii, some si =>
        let pairs := df.rows.map fun r => (r, r.getD mi Cell.nan)
        let chosen :=
          (sortBy (fun a b => cellGE a.2 b.2)
            (pairs.filter fun p => decide (p.2 ≠ Cell.nan))).take top_n
        .ok (chosen.map (fun p =>
          let revc := p.1.getD ri Cell.nan
          let nic := p.1.getD nii Cell.nan
          { company := p.1.getD ci Cell.nan
            revenue := revc
            expenses := p.1.getD ei Cell.nan
            net_income := nic
            sector := p.1.getD si Cell.nan
            profit_margin := cround2 (cmulQ (cdiv nic revc) 100) }), df)
      | none, _, _, _, _ => .error (.keyError "Company")
      | _, none, _, _, _ => .error (.keyError "Revenue")
      | _, _, none, _, _ => .error (.keyError "Expenses")
      | _, _, _, none, _ => .error (.keyError "Net_Income")
      | _, _, _, _, none => .error (.keyError "Sector")

/-- `generate_risk_assessment` (`financial_report.py` lines 147-171).
The two derived columns are stored into `self.data` (modelled by the
returned `DataFrame`); the stored series are read back immediately, which
on a rectangular frame returns exactly the series just computed, so the
computation reuses them. -/
def generate_risk_assessment (df : DataFrame) :
    Except Err (RiskAssessment × DataFrame) :=
  match df.col "Expenses" with
  | none => .error (.keyError "Expenses")
  | some exps =>
    match df.col "Revenue" with
    | none => .error (.keyError "Revenue")
    | some rev =>
      match (df.setCol "Debt_to_Revenue" (List.zipWith cdiv exps rev)).col
          "Net_Income" with
      | none => .error (.keyError "Net_Income")
      | some ni =>
        match ((df.setCol "Debt_to_Revenue" (List.zipWith cdiv exps rev)).setCol
            "Volatility_Score"
            (ni.map fun x => cdiv (cabs (csub x (cmean ni))) (cstd ni))).col
            "Company" with
        | none => .error (.keyError "Company")
        | some comp =>
          .ok ({ high_debt_companies :=
                   ((List.zipWith cdiv exps rev).filter fun c =>
                     cgt c (4/5)).length
                 low_profit_margin_companies :=
                   ((List.zipWith cdiv ni rev).filter fun c =>
                     clt c (1/20)).length
                 average_volatility :=
                   cmean (ni.map fun x =>
                     cdiv (cabs (csub x (cmean ni))) (cstd ni))
                 companies_at_risk :=
                   ((comp.zip ((List.zipWith cdiv exps rev).zip
                     (List.zipWith cdiv ni rev))).filter fun t =>
                     cgt t.2.1 (4/5) || clt t.2.2 (1/20)).map fun t => t.1 },
               (df.setCol "Debt_to_Revenue" (List.zipWith cdiv exps rev)).setCol
                 "Volatility_Score"
                 (ni.map fun x => cdiv (cabs (csub x (cmean ni))) (cstd ni)))

/-! ### Narrator (`src/gpt_summary.py`)

Only the deterministic prompt construction is modelled; the remote
chat-completion call, its per-section failure fallback strings and the
empty-input early returns are network glue outside the model.  The entry
structures model the record dicts handed over by the dashboard (built
from the aggregator frames), which always carry the keys the prompt
reads, so the `.get` defaults are never exercised. -/

/-- Python `format(x, ',.0f')` digit grouping: commas every three digits,
working over the reversed digit list. -/
def commaGroup : List Char → List Char
  | d1 :: d2 :: d3 :: d4 :: rest =>
    d1 :: d2 :: d3 :: ',' :: commaGroup (d4 :: rest)
  | l => l

/-- Python `f"{q:,.0f}"`: round to an integer (ties modelled half away
from zero) and group digits with commas. -/
def fmtComma0 (q : ℚ) : String :=
  let n := roundQ q
  let sign := if n < 0 then "-" else ""
  sign ++ String.mk ((commaGroup n.natAbs.repr.data.reverse).reverse)

/-- Python `f"{q:.1f}"`: one decimal digit.  The rounded value
`⌊10·q + 1/2⌋` is computed on the raw numerator/denominator (equal to
`roundQ (q * 10)`) so that it evaluates inside the kernel. -/
def fmt1 (q : ℚ) : String :=
  let m := Int.fdiv (20 * q.num + q.den) (2 * q.den)
  let sign := if m < 0 then "-" else ""
  sign ++ (m.natAbs / 10).repr ++ "." ++ (m.natAbs % 10).repr

/-- One record handed to `analyze_company_performance`: a row of the
company-insights frame. -/
structure CompanyEntry where
  company : String
  revenue_sum : ℚ
  net_income_sum : ℚ
  profit_margin : ℚ
deriving DecidableEq, Repr

/-- One record handed to `generate_sector_insights`: a row of the
sector-analysis frame. -/
structure SectorEntry where
  sector : String
  revenue_sum : ℚ
  revenue_count : Nat
  avg_profit_margin : ℚ
deriving DecidableEq, Repr

/-- One record handed to `generate_investment_recommendations`: a row of
the top-performers frame. -/
structure PerformerEntry where
  company : String
  revenue : ℚ
  net_income : ℚ
  profit_margin : ℚ
  sector : String
deriving DecidableEq, Repr

/-- One bullet of the company list (`gpt_summary.py` lines 58-61). -/
def companyLine (c : CompanyEntry) : String :=
  "- " ++ c.company ++ ": Revenue $" ++ fmtComma0 c.revenue_sum ++
    ", Net Income $" ++ fmtComma0 c.net_income_sum ++
    ", Profit Margin " ++ fmt1 c.profit_margin ++ "%"

/-- The embedded company list: the comprehension runs over
`company_data[:10]` (`gpt_summary.py` line 62). -/
def company_info (l : List CompanyEntry) : String :=
  String.intercalate "\n" ((l.take 10).map companyLine)

/-- The prompt built by `analyze_company_performance`
(`gpt_summary.py` lines 65-77). -/
def analyze_company_performance_prompt (l : List CompanyEntry) : String :=
  "\n        Analyze the performance of these companies based on their financial metrics:\n        \n        "
    ++ company_info l ++
  "\n        \n        Provide insights on:\n        1. Which companies show the strongest financial health\n        2. Companies that may need attention or restructuring\n        3. Industry patterns or trends you observe\n        4. Recommendations for portfolio management\n        \n        Be specific and data-driven in your analysis (max 250 words).\n        "

/-- One bullet of the sector list (`gpt_summary.py` lines 97-100). -/
def sectorLine (s : SectorEntry) : String :=
  "- " ++ s.sector ++ ": Total Revenue $" ++ fmtComma0 s.revenue_sum ++
    ", Companies: " ++ s.revenue_count.repr ++
    ", Avg Profit Margin: " ++ fmt1 s.avg_profit_margin ++ "%"

/-- The embedded sector list: the comprehension runs over the whole
`sector_data` list (`gpt_summary.py` line 101 has no slice). -/
def sector_info (l : List SectorEntry) : String :=
  String.intercalate "\n" (l.map sectorLine)

/-- The prompt built by `generate_sector_insights`
(`gpt_summary.py` lines 104-116). -/
def generate_sector_insights_prompt (l : List SectorEntry) : String :=
  "\n        Analyze sector performance based on the following data:\n        \n        "
    ++ sector_info l ++
  "\n        \n        Provide insights on:\n        1. Best performing sectors and why\n        2. Sectors facing challenges\n        3. Market opportunities and threats\n        4. Investment recommendations by sector\n        \n        Focus on actionable insights for investors and business leaders (max 200 words).\n        "

/-- One bullet of the performer list (`gpt_summary.py` lines 168-172). -/
def performerLine (p : PerformerEntry) : String :=
  "- " ++ p.company ++ ": Revenue $" ++ fmtComma0 p.revenue ++
    ", Net Income $" ++ fmtComma0 p.net_income ++
    ", Profit Margin " ++ fmt1 p.profit_margin ++ "%, Sector: " ++ p.sector

/-- The embedded performer list: the comprehension runs over
`top_performers[:5]` (`gpt_summary.py` line 173). -/
def performer_info (l : List PerformerEntry) : String :=
  String.intercalate "\n" ((l.take 5).map performerLine)

/-- The prompt built by `generate_investment_recommendations`
(`gpt_summary.py` lines 176-190). -/
def generate_investment_recommendations_prompt
    (l : List PerformerEntry) : String :=
  "\n        Based on the top performing companies, provide investment recommendations:\n        \n        Top Performers:\n        "
    ++ performer_info l ++
  "\n        \n        Provide:\n        1. Investment attractiveness ranking\n        2. Growth potential assessment\n        3. Risk-adjusted return expectations\n        4. Portfolio allocation suggestions\n        5. Timeline recommendations (short/medium/long term)\n        \n        Focus on practical investment advice (max 250 words).\n        "

/-! ### Evaluation lemmas -/

theorem numsOf_map_num (l : List ℚ) : numsOf (l.map Cell.num) = l := by
  induction l with
  | nil => rfl
  | cons a l ih => simp [numsOf, List.filterMap_cons] at ih ⊢; exact ih

theorem csum_map_num (l : List ℚ) : csum (l.map Cell.num) = Cell.num l.sum := by
  rw [csum, numsOf_map_num]

theorem cmean_map_num (l : List ℚ) (h : l ≠ []) :
    cmean (l.map Cell.num) = Cell.num (l.sum / l.length) := by
  rw [cmean, numsOf_map_num]
  rw [if_neg]
  simpa using h

theorem cdiv_num_num {a b : ℚ} (hb : b ≠ 0) :
    cdiv (Cell.num a) (Cell.num b) = Cell.num (a / b) := by
  simp [cdiv, hb]

theorem zipWith_cdiv_map_num :
    ∀ (nis revs : List ℚ), (∀ q ∈ revs, q ≠ 0) →
      List.zipWith cdiv (nis.map Cell.num) (revs.map Cell.num) =
        (List.zipWith (fun a b => a / b) nis revs).map Cell.num
  | [], _, _ => by simp
  | _ :: _, [], _ => by simp
  | a :: nis, b :: revs, h => by
    simp only [List.map_cons, List.zipWith_cons_cons]
    rw [cdiv_num_num (h b (List.mem_cons_self b revs)),
      zipWith_cdiv_map_num nis revs (fun q hq => h q (List.mem_cons_of_mem b hq))]

theorem cmulQ_num (a k : ℚ) : cmulQ (Cell.num a) k = Cell.num (a * k) := rfl

/-! ### C7 — sectorInsights with no Sector column -/

/-- C7: on a loaded table with no `Sector` column, `get_sector_analysis`
returns an empty sequence (and the unchanged table) rather than an
error. -/
theorem c7_no_sector_empty (df : DataFrame)
    (h : df.hasCol "Sector" = false) :
    get_sector_analysis df = .ok ([], df) := by
  unfold get_sector_analysis
  rw [col_eq_none_iff.2 (fun hm => by rw [hasCol_iff.2 hm] at h; cases h)]

/-- Witness for C7 at a concrete sector-less table. -/
theorem c7_no_sector_empty_witness :
    (⟨["Company", "Revenue", "Expenses", "Net_Income"],
      [[.str "A", .num 100, .num 90, .num 10]]⟩ : DataFrame).hasCol "Sector"
        = false ∧
    get_sector_analysis
      ⟨["Company", "Revenue", "Expenses", "Net_Income"],
       [[.str "A", .num 100, .num 90, .num 10]]⟩ =
      .ok ([], ⟨["Company", "Revenue", "Expenses", "Net_Income"],
        [[.str "A", .num 100, .num 90, .num 10]]⟩) :=
  ⟨rfl, c7_no_sector_empty _ rfl⟩

/-! ### C6 — summarize fails on a missing required column -/

/-- C6: when any of the four required columns is absent,
`generate_basic_report` fails with a `KeyError` (the spec's
MissingColumnError) naming a missing required column. -/
theorem c6_missing_required_column (df : DataFrame)
    (h : ∃ c ∈ ["Company", "Revenue", "Expenses", "Net_Income"],
      c ∉ df.columns) :
    ∃ c ∈ ["Company", "Revenue", "Expenses", "Net_Income"],
      c ∉ df.columns ∧
      generate_basic_report df = .error (.keyError c) ∧
      (Err.keyError c).isMissingColumn = true := by
  cases hcc : df.col "Company" with
  | none =>
    refine ⟨"Company", by simp, col_eq_none_iff.1 hcc, ?_, rfl⟩
    unfold generate_basic_report
    rw [hcc]
  | some comp =>
    cases hrr : df.col "Revenue" with
    | none =>
      refine ⟨"Revenue", by simp, col_eq_none_iff.1 hrr, ?_, rfl⟩
      unfold generate_basic_report
      rw [hcc, hrr]
    | some rev =>
      cases hee : df.col "Expenses" with
      | none =>
        refine ⟨"Expenses", by simp, col_eq_none_iff.1 hee, ?_, rfl⟩
        unfold generate_basic_report
        rw [hcc, hrr, hee]
      | some exps =>
        cases hnn : df.col "Net_Income" with
        | none =>
          refine ⟨"Net_Income", by simp, col_eq_none_iff.1 hnn, ?_, rfl⟩
          unfold generate_basic_report
          rw [hcc, hrr, hee, hnn]
        | some ni =>
          exfalso
          obtain ⟨c, hc, hnotin⟩ := h
          simp only [List.mem_cons, List.not_mem_nil, or_false] at hc
          rcases hc with rfl | rfl | rfl | rfl
          · exact hnotin (col_isSome_iff.1 (by rw [hcc]; rfl))
          · exact hnotin (col_isSome_iff.1 (by rw [hrr]; rfl))
          · exact hnotin (col_isSome_iff.1 (by rw [hee]; rfl))
          · exact hnotin (col_isSome_iff.1 (by rw [hnn]; rfl))

/-- Witness for C6 at a table whose only column is `Company`. -/
theorem c6_missing_required_column_witness :
    (∃ c ∈ ["Company", "Revenue", "Expenses", "Net_Income"],
      c ∉ (⟨["Company"], [[Cell.str "A"]]⟩ : DataFrame).columns) ∧
    ∃ c ∈ ["Company", "Revenue", "Expenses", "Net_Income"],
      c ∉ (⟨["Company"], [[Cell.str "A"]]⟩ : DataFrame).columns ∧
      generate_basic_report ⟨["Company"], [[Cell.str "A"]]⟩ =
        .error (.keyError c) ∧
      (Err.keyError c).isMissingColumn = true :=
  ⟨by decide, c6_missing_required_column _ (by decide)⟩

/-! ### C3 — total_revenue is the sum of the Revenue column -/

/-- C3: whenever `generate_basic_report` produces a result on a table
whose `Revenue` column holds the numbers `revs`, the `total_revenue`
field is their arithmetic sum. -/
theorem c3_total_revenue_is_sum (df d : DataFrame) (s : BasicSummary)
    (revs : List ℚ)
    (hr : df.col "Revenue" = some (revs.map Cell.num))
    (hok : generate_basic_report df = .ok (s, d)) :
    s.total_revenue = Cell.num revs.sum := by
  unfold generate_basic_report at hok
  cases hcc : df.col "Company" with
  | none => rw [hcc] at hok; cases hok
  | some comp =>
    rw [hcc, hr] at hok
    cases hee : df.col "Expenses" with
    | none => rw [hee] at hok; cases hok
    | some exps =>
      rw [hee] at hok
      cases hnn : df.col "Net_Income" with
      | none => rw [hnn] at hok; cases hok
      | some ni =>
        rw [hnn] at hok
        simp only [Except.ok.injEq, Prod.mk.injEq] at hok
        rw [← hok.1]
        exact csum_map_num revs

/-! ### C1 — portfolio margins are means of per-row ratios -/

/-- C1: on a loaded table with the four required columns, a nonempty
`Revenue` column of nonzero numbers, `generate_basic_report` computes
`profit_margin_avg` and `expense_ratio_avg` as the mean over rows of the
per-row ratio times 100 — not as a ratio of the column sums. -/
theorem c1_mean_of_per_row_ratios (df : DataFrame) (comp : List Cell)
    (revs exps nis : List ℚ)
    (hc : df.col "Company" = some comp)
    (hr : df.col "Revenue" = some (revs.map Cell.num))
    (he : df.col "Expenses" = some (exps.map Cell.num))
    (hn : df.col "Net_Income" = some (nis.map Cell.num))
    (hne : revs ≠ []) (hnz : ∀ q ∈ revs, q ≠ 0) :
    ∃ s : BasicSummary, generate_basic_report df = .ok (s, df) ∧
      s.profit_margin_avg = Cell.num
        ((List.zipWith (fun a b => a / b) nis revs).sum /
          (List.zipWith (fun a b => a / b) nis revs).length * 100) ∧
      s.expense_ratio_avg = Cell.num
        ((List.zipWith (fun a b => a / b) exps revs).sum /
          (List.zipWith (fun a b => a / b) exps revs).length * 100) := by
  have hlr : revs.length = df.rows.length := by
    have := col_length hr
    simpa using this
  have hln : nis.length = df.rows.length := by
    have := col_length hn
    simpa using this
  have hle : exps.length = df.rows.length := by
    have := col_length he
    simpa using this
  have hrpos : 0 < revs.length := List.length_pos.2 hne
  have hzn : (List.zipWith (fun a b : ℚ => a / b) nis revs) ≠ [] := by
    apply List.length_pos.1
    rw [List.length_zipWith]
    omega
  have hze : (List.zipWith (fun a b : ℚ => a / b) exps revs) ≠ [] := by
    apply List.length_pos.1
    rw [List.length_zipWith]
    omega
  unfold generate_basic_report
  rw [hc, hr, he, hn]
  refine ⟨_, rfl, ?_, ?_⟩
  · show cmulQ (cmean (List.zipWith cdiv (nis.map Cell.num)
      (revs.map Cell.num))) 100 = _
    rw [zipWith_cdiv_map_num nis revs hnz, cmean_map_num _ hzn, cmulQ_num]
  · show cmulQ (cmean (List.zipWith cdiv (exps.map Cell.num)
      (revs.map Cell.num))) 100 = _
    rw [zipWith_cdiv_map_num exps revs hnz, cmean_map_num _ hze, cmulQ_num]

/-- The spec's worked example: rows (A, 100, 90, 10) and (B, 200, 100, 100). -/
def dfAB : DataFrame :=
  ⟨["Company", "Revenue", "Expenses", "Net_Income"],
   [[.str "A", .num 100, .num 90, .num 10],
    [.str "B", .num 200, .num 100, .num 100]]⟩

/-- The basic report of `dfAB`, spelled out. -/
def sAB : BasicSummary :=
  { total_companies := 2
    total_revenue := .num 300
    total_expenses := .num 190
    total_net_income := .num 110
    average_revenue := .num 150
    average_expenses := .num 95
    average_net_income := .num 55
    revenue_std := .num (Rat.sqrt 5000)
    profit_margin_avg := .num 30
    expense_ratio_avg := .num 70
    market_cap_stats := none }

theorem basic_report_dfAB : generate_basic_report dfAB = .ok (sAB, dfAB) := by
  unfold generate_basic_report
  rw [show dfAB.col "Company" = some [Cell.str "A", Cell.str "B"] from rfl,
    show dfAB.col "Revenue" = some [Cell.num 100, Cell.num 200] from rfl,
    show dfAB.col "Expenses" = some [Cell.num 90, Cell.num 100] from rfl,
    show dfAB.col "Net_Income" = some [Cell.num 10, Cell.num 100] from rfl,
    show dfAB.col "Market_Cap" = none from rfl]
  norm_num [sAB, csum, cmean, cstd, cnunique, numsOf, sampleVar, cdiv,
    cmulQ, List.zipWith_cons_cons, List.filterMap_cons]
  decide

/-- Witness for C1: on the spec's example rows the profit margin is the
mean of 10% and 50%, i.e. 30%, and the expense ratio is 70%. -/
theorem c1_mean_of_per_row_ratios_witness :
    ∃ s : BasicSummary, generate_basic_report dfAB = .ok (s, dfAB) ∧
      s.profit_margin_avg = Cell.num 30 ∧
      s.expense_ratio_avg = Cell.num 70 := by
  obtain ⟨s, hok, hm, hx⟩ := c1_mean_of_per_row_ratios dfAB
    [Cell.str "A", Cell.str "B"] [100, 200] [90, 100] [10, 100]
    rfl rfl rfl rfl (by decide) (by decide)
  refine ⟨s, hok, ?_, ?_⟩
  · rw [hm]
    norm_num [List.zipWith_cons_cons]
  · rw [hx]
    norm_num [List.zipWith_cons_cons]

/-- Witness for C3 at the spec's example table: total revenue 300. -/
theorem c3_total_revenue_is_sum_witness :
    dfAB.col "Revenue" = some ([100, 200].map Cell.num) ∧
    sAB.total_revenue = Cell.num 300 := by
  refine ⟨rfl, ?_⟩
  have h := c3_total_revenue_is_sum dfAB dfAB sAB [100, 200] rfl
    basic_report_dfAB
  rw [h]
  norm_num

/-! ### C8 — list truncation before prompt building -/

/-- Eleven sector records with distinct names: more than the ten the
claim says survive truncation. -/
def sectors11 : List SectorEntry :=
  [⟨"S01", 0, 0, 0⟩, ⟨"S02", 0, 0, 0⟩, ⟨"S03", 0, 0, 0⟩, ⟨"S04", 0, 0, 0⟩,
   ⟨"S05", 0, 0, 0⟩, ⟨"S06", 0, 0, 0⟩, ⟨"S07", 0, 0, 0⟩, ⟨"S08", 0, 0, 0⟩,
   ⟨"S09", 0, 0, 0⟩, ⟨"S10", 0, 0, 0⟩, ⟨"S11", 0, 0, 0⟩]

set_option maxRecDepth 20000

/-- Counterexample to C8: the sector-insights prompt is *not* invariant
under truncating its input to the top 10 sectors — line 101 of
`gpt_summary.py` iterates over the whole `sector_data` list, so an
eleventh sector changes the prompt text. -/
theorem c8_counterexample_sector_not_truncated :
    generate_sector_insights_prompt sectors11 ≠
      generate_sector_insights_prompt (sectors11.take 10) := by
  decide

/-- C8 as amended: the company-analysis prompt depends only on the first
10 company records and the investment-recommendations prompt only on the
first 5 performer records, but the sector-insights prompt embeds the
whole sector list (witnessed at `sectors11`). -/
theorem c8_truncation_amended :
    (∀ l : List CompanyEntry,
      analyze_company_performance_prompt l =
        analyze_company_performance_prompt (l.take 10)) ∧
    (∀ l : List PerformerEntry,
      generate_investment_recommendations_prompt l =
        generate_investment_recommendations_prompt (l.take 5)) ∧
    generate_sector_insights_prompt sectors11 ≠
      generate_sector_insights_prompt (sectors11.take 10) := by
  refine ⟨fun l => ?_, fun l => ?_, by decide⟩
  · unfold analyze_company_performance_prompt company_info
    rw [List.take_take, min_self]
  · unfold generate_investment_recommendations_prompt performer_info
    rw [List.take_take, min_self]

/-! ### C5 / C10 — identify_top_performers error behaviour -/

/-- Whether `name` is a numeric column of `df`: present, and of numeric
dtype (no string entries — a CSV column that fails numeric parsing is
loaded with every entry a string). -/
def isNumericColumn (df : DataFrame) (name : String) : Bool :=
  match df.col name with
  | none => false
  | some l => l.all fun c => !c.isStr

/-- C5: for every metric that is not a numeric column — absent, or
present with object dtype — `identify_top_performers` fails with the
spec's InvalidMetricError (the `ValueError` or `TypeError` it raises). -/
theorem c5_invalid_metric (df : DataFrame) (metric : String) (n : Nat)
    (h : isNumericColumn df metric = false) :
    ∃ e, identify_top_performers df metric n = .error e ∧
      e.isInvalidMetric = true := by
  unfold identify_top_performers
  split
  · exact ⟨_, rfl, rfl⟩
  · rename_i mi hidx
    have hcol : df.col metric =
        some (df.rows.map fun r => r.getD mi Cell.nan) := by
      unfold DataFrame.col
      rw [hidx]
      rfl
    unfold isNumericColumn at h
    rw [hcol] at h
    replace h :
        ((df.rows.map fun r => r.getD mi Cell.nan).all fun c => !c.isStr)
          = false := h
    have hvals :
        ((df.rows.map fun r => r.getD mi Cell.nan).any Cell.isStr) = true := by
      rw [List.any_eq_true]
      rw [List.all_eq_false] at h
      obtain ⟨c, hc, hp⟩ := h
      exact ⟨c, hc, by simpa using hp⟩
    rw [if_pos hvals]
    exact ⟨_, rfl, rfl⟩

/-- Witness for C5: ranking `dfAB` by the string column `Company`. -/
theorem c5_invalid_metric_witness :
    isNumericColumn dfAB "Company" = false ∧
    ∃ e, identify_top_performers dfAB "Company" 5 = .error e ∧
      e.isInvalidMetric = true :=
  ⟨by decide, c5_invalid_metric dfAB "Company" 5 (by decide)⟩

/-- C10: on a table with the four required columns but no `Sector`
column, `identify_top_performers` fails (with the `KeyError` from the
unconditional `Sector` selection) even though the requested metric is a
perfectly valid numeric column. -/
theorem c10_top_performers_need_sector (df : DataFrame) (metric : String)
    (n : Nat)
    (hm : isNumericColumn df metric = true)
    (hc : "Company" ∈ df.columns) (hr : "Revenue" ∈ df.columns)
    (he : "Expenses" ∈ df.columns) (hn : "Net_Income" ∈ df.columns)
    (hs : "Sector" ∉ df.columns) :
    identify_top_performers df metric n = .error (.keyError "Sector") := by
  unfold identify_top_performers
  split
  · rename_i hidx
    unfold isNumericColumn at hm
    rw [show df.col metric = none by
      unfold DataFrame.col
      rw [hidx]
      rfl] at hm
    cases hm
  · rename_i mi hidx
    unfold isNumericColumn at hm
    rw [show df.col metric =
        some (df.rows.map fun r => r.getD mi Cell.nan) by
      unfold DataFrame.col
      rw [hidx]
      rfl] at hm
    replace hm :
        ((df.rows.map fun r => r.getD mi Cell.nan).all fun c => !c.isStr)
          = true := hm
    have hvals :
        ((df.rows.map fun r => r.getD mi Cell.nan).any Cell.isStr) = false := by
      rw [List.any_eq_false]
      intro c hcmem
      rw [List.all_eq_true] at hm
      have := hm c hcmem
      simpa using this
    rw [hvals, if_neg Bool.false_ne_true]
    obtain ⟨ci, hci⟩ := Option.isSome_iff_exists.1 (colIdx_isSome_iff.2 hc)
    obtain ⟨ri, hri⟩ := Option.isSome_iff_exists.1 (colIdx_isSome_iff.2 hr)
    obtain ⟨ei, hei⟩ := Option.isSome_iff_exists.1 (colIdx_isSome_iff.2 he)
    obtain ⟨ni, hni⟩ := Option.isSome_iff_exists.1 (colIdx_isSome_iff.2 hn)
    rw [hci, hri, hei, hni, colIdx_eq_none_iff.2 hs]

/-- Witness for C10: ranking `dfAB` (which has no `Sector` column) by the
numeric column `Net_Income`. -/
theorem c10_top_performers_need_sector_witness :
    isNumericColumn dfAB "Net_Income" = true ∧
    "Sector" ∉ dfAB.columns ∧
    identify_top_performers dfAB "Net_Income" 5 =
      .error (.keyError "Sector") :=
  ⟨by decide, by decide,
    c10_top_performers_need_sector dfAB "Net_Income" 5 (by decide)
      (by decide) (by decide) (by decide) (by decide) (by decide)⟩

/-! ### C4 — degenerate volatility is NaN, not a crash -/

theorem cdiv_nan_right (c : Cell) : cdiv c Cell.nan = Cell.nan := by
  cases c <;> rfl

theorem numsOf_eq_nil_of_all_nan {l : List Cell}
    (h : ∀ c ∈ l, c = Cell.nan) : numsOf l = [] := by
  induction l with
  | nil => rfl
  | cons a l ih =>
    have ha := h a (List.mem_cons_self a l)
    subst ha
    simp only [numsOf, List.filterMap_cons]
    exact ih fun c hc => h c (List.mem_cons_of_mem _ hc)

theorem cmean_eq_nan_of_all_nan {l : List Cell}
    (h : ∀ c ∈ l, c = Cell.nan) : cmean l = Cell.nan := by
  rw [cmean, numsOf_eq_nil_of_all_nan h]
  rfl

theorem nonneg_sum_zero :
    ∀ (l : List ℚ), (∀ x ∈ l, 0 ≤ x) → l.sum = 0 → ∀ x ∈ l, x = 0
  | [], _, _, _, hx => by cases hx
  | a :: l, hpos, hsum, x, hx => by
    have hs : 0 ≤ l.sum :=
      List.sum_nonneg fun y hy => hpos y (List.mem_cons_of_mem a hy)
    have ha : 0 ≤ a := hpos a (List.mem_cons_self a l)
    rw [List.sum_cons] at hsum
    have ha0 : a = 0 := by linarith
    have hl0 : l.sum = 0 := by linarith
    rcases List.mem_cons.1 hx with rfl | hx'
    · exact ha0
    · exact nonneg_sum_zero l
        (fun y hy => hpos y (List.mem_cons_of_mem a hy)) hl0 x hx'

/-- Zero sample variance with at least two entries forces every entry to
equal the mean. -/
theorem sampleVar_zero_all_mean {ns : List ℚ} (h2 : 2 ≤ ns.length)
    (hv : sampleVar ns = 0) : ∀ x ∈ ns, x = ns.sum / ns.length := by
  have hden : ((ns.length : ℚ) - 1) ≠ 0 := by
    have : (2 : ℚ) ≤ (ns.length : ℚ) := by exact_mod_cast h2
    linarith
  unfold sampleVar at hv
  rcases div_eq_zero_iff.1 hv with hnum | hbad
  · intro x hx
    have hmem : (x - ns.sum / ns.length) ^ 2 ∈
        ns.map fun y => (y - ns.sum / ns.length) ^ 2 :=
      List.mem_map_of_mem _ hx
    have hsq := nonneg_sum_zero _
      (fun y hy => by
        obtain ⟨z, _, rfl⟩ := List.mem_map.1 hy
        positivity)
      hnum _ hmem
    have hx0 : x - ns.sum / ns.length = 0 :=
      (pow_eq_zero_iff (by norm_num : (2 : ℕ) ≠ 0)).1 hsq
    linarith
  · exact absurd hbad hden

/-- Row counts are preserved by `setCol` with a full-length column. -/
theorem setCol_rows_length {df : DataFrame} {name : String}
    {vals : List Cell} (hl : vals.length = df.rows.length) :
    (df.setCol name vals).rows.length = df.rows.length := by
  cases hidx : colIdx df.columns name with
  | some i =>
    rw [setCol_eq_of_idx_some hidx]
    simp [List.length_zip, hl]
  | none =>
    rw [setCol_eq_of_idx_none hidx]
    simp [List.length_zip, hl]

/-- C4: on a loaded table with the required columns whose net-income
standard deviation is undefined (fewer than two rows) or zero (constant
income), `generate_risk_assessment` returns normally and its
`average_volatility` is NaN — pandas' "no volatility signal" value — not
an exception. -/
theorem c4_degenerate_volatility_nan (df : DataFrame) (comp rev exps : List Cell)
    (nis : List ℚ) (hw : df.WF)
    (hc : df.col "Company" = some comp)
    (hr : df.col "Revenue" = some rev)
    (he : df.col "Expenses" = some exps)
    (hn : df.col "Net_Income" = some (nis.map Cell.num))
    (hdeg : nis.length ≤ 1 ∨ sampleVar nis = 0) :
    ∃ (r : RiskAssessment) (d : DataFrame),
      generate_risk_assessment df = .ok (r, d) ∧
      r.average_volatility = Cell.nan := by
  have hlr : rev.length = df.rows.length := col_length hr
  have hlex : exps.length = df.rows.length := col_length he
  have hd2r : (List.zipWith cdiv exps rev).length = df.rows.length := by
    rw [List.length_zipWith]
    omega
  have hni1 : (df.setCol "Debt_to_Revenue" (List.zipWith cdiv exps rev)).col
      "Net_Income" = some (nis.map Cell.num) := by
    rw [col_setCol_ne hw hd2r (by decide)]
    exact hn
  have hw1 : (df.setCol "Debt_to_Revenue" (List.zipWith cdiv exps rev)).WF :=
    WF_setCol hw hd2r
  have hvol : ((nis.map Cell.num).map fun x =>
      cdiv (cabs (csub x (cmean (nis.map Cell.num))))
        (cstd (nis.map Cell.num))).length =
      (df.setCol "Debt_to_Revenue" (List.zipWith cdiv exps rev)).rows.length := by
    rw [setCol_rows_length hd2r]
    simp only [List.length_map]
    have := col_length hn
    simpa using this
  have hcomp : ((df.setCol "Debt_to_Revenue" (List.zipWith cdiv exps rev)).setCol
      "Volatility_Score" ((nis.map Cell.num).map fun x =>
        cdiv (cabs (csub x (cmean (nis.map Cell.num))))
          (cstd (nis.map Cell.num)))).col "Company" = some comp := by
    rw [col_setCol_ne hw1 hvol (by decide),
      col_setCol_ne hw hd2r (by decide)]
    exact hc
  unfold generate_risk_assessment
  split
  · rename_i heq
    rw [he] at heq
    cases heq
  · rename_i exps2 heq
    rw [he] at heq
    injection heq with heq
    subst heq
    split
    · rename_i heq2
      rw [hr] at heq2
      cases heq2
    · rename_i rev2 heq2
      rw [hr] at heq2
      injection heq2 with heq2
      subst heq2
      split
      · rename_i heq3
        rw [hni1] at heq3
        cases heq3
      · rename_i ni2 heq3
        rw [hni1] at heq3
        injection heq3 with heq3
        subst heq3
        split
        · rename_i heq4
          rw [hcomp] at heq4
          cases heq4
        · rename_i comp2 heq4
          refine ⟨_, _, rfl, ?_⟩
          apply cmean_eq_nan_of_all_nan
          intro c hcm
          obtain ⟨x, hxmem, rfl⟩ := List.mem_map.1 hcm
          obtain ⟨q, hq, rfl⟩ := List.mem_map.1 hxmem
          by_cases h1 : nis.length ≤ 1
          · have hstd : cstd (nis.map Cell.num) = Cell.nan := by
              rw [cstd, numsOf_map_num]
              simp [h1]
            rw [hstd, cdiv_nan_right]
          · have h2 : 2 ≤ nis.length := by omega
            have hvar : sampleVar nis = 0 := hdeg.resolve_left h1
            have hstd : cstd (nis.map Cell.num) = Cell.num 0 := by
              rw [cstd, numsOf_map_num]
              rw [if_neg h1, hvar]
              norm_num
            have hmean : cmean (nis.map Cell.num) =
                Cell.num (nis.sum / nis.length) :=
              cmean_map_num nis (by intro hnil; rw [hnil] at h2; simp at h2)
            have hqmean : q = nis.sum / nis.length :=
              sampleVar_zero_all_mean h2 hvar q hq
            rw [hstd, hmean]
            show cdiv (cabs (Cell.num (q - nis.sum / nis.length)))
              (Cell.num 0) = Cell.nan
            rw [hqmean]
            simp [cabs, cdiv]

/-- Witness for C4: a single-row table. -/
theorem c4_degenerate_volatility_nan_witness :
    ∃ (r : RiskAssessment) (d : DataFrame),
      generate_risk_assessment
        ⟨["Company", "Revenue", "Expenses", "Net_Income"],
         [[.str "A", .num 100, .num 90, .num 10]]⟩ = .ok (r, d) ∧
      r.average_volatility = Cell.nan :=
  c4_degenerate_volatility_nan
    ⟨["Company", "Revenue", "Expenses", "Net_Income"],
     [[.str "A", .num 100, .num 90, .num 10]]⟩
    [.str "A"] [.num 100] [.num 90] [10]
    (by unfold DataFrame.WF; decide) rfl rfl rfl rfl (Or.inl (by decide))

/-! ### C9 — only generate_risk_assessment mutates the stored table -/

/-- C9: the three read-only computations return the stored table
unchanged whenever they succeed, while `generate_risk_assessment` on a
table with the required columns (and without the two derived columns)
returns a table extended with the `Debt_to_Revenue` and
`Volatility_Score` columns — the state every subsequent computation
receives. -/
theorem c9_risk_assessment_mutates :
    (∀ (df d : DataFrame) (s : BasicSummary),
      generate_basic_report df = .ok (s, d) → d = df) ∧
    (∀ (df d : DataFrame) (rows : List CompanyRow),
      get_company_insights df = .ok (rows, d) → d = df) ∧
    (∀ (df d : DataFrame) (rows : List SectorRow),
      get_sector_analysis df = .ok (rows, d) → d = df) ∧
    (∀ (df : DataFrame), df.WF →
      ∀ (comp rev exps ni : List Cell),
      df.col "Company" = some comp → df.col "Revenue" = some rev →
      df.col "Expenses" = some exps → df.col "Net_Income" = some ni →
      "Debt_to_Revenue" ∉ df.columns → "Volatility_Score" ∉ df.columns →
      ∃ (r : RiskAssessment) (d : DataFrame),
        generate_risk_assessment df = .ok (r, d) ∧
        d.columns = df.columns ++ ["Debt_to_Revenue", "Volatility_Score"]) := by
  refine ⟨?_, ?_, ?_, ?_⟩
  · intro df d s h
    unfold generate_basic_report at h
    split at h
    · cases h
    · split at h
      · cases h
      · split at h
        · cases h
        · split at h
          · cases h
          · simp only [Except.ok.injEq, Prod.mk.injEq] at h
            exact h.2.symm
  · intro df d rows h
    unfold get_company_insights at h
    split at h
    · cases h
    · split at h
      · cases h
      · split at h
        · cases h
        · split at h
          · cases h
          · split at h
            · cases h
            · simp only [Except.ok.injEq, Prod.mk.injEq] at h
              exact h.2.symm
  · intro df d rows h
    unfold get_sector_analysis at h
    split at h
    · simp only [Except.ok.injEq, Prod.mk.injEq] at h
      exact h.2.symm
    · split at h
      · cases h
      · split at h
        · cases h
        · split at h
          · cases h
          · simp only [Except.ok.injEq, Prod.mk.injEq] at h
            exact h.2.symm
  · intro df hw comp rev exps ni hc hr he hn hd2notin hvsnotin
    have hlr : rev.length = df.rows.length := col_length hr
    have hlex : exps.length = df.rows.length := col_length he
    have hd2r : (List.zipWith cdiv exps rev).length = df.rows.length := by
      rw [List.length_zipWith]
      omega
    have hni1 : (df.setCol "Debt_to_Revenue" (List.zipWith cdiv exps rev)).col
        "Net_Income" = some ni := by
      rw [col_setCol_ne hw hd2r (by decide)]
      exact hn
    have hw1 : (df.setCol "Debt_to_Revenue" (List.zipWith cdiv exps rev)).WF :=
      WF_setCol hw hd2r
    have hvol : (ni.map fun x =>
        cdiv (cabs (csub x (cmean ni))) (cstd ni)).length =
        (df.setCol "Debt_to_Revenue" (List.zipWith cdiv exps rev)).rows.length := by
      rw [setCol_rows_length hd2r]
      simp only [List.length_map]
      exact col_length hn
    have hcomp : ((df.setCol "Debt_to_Revenue" (List.zipWith cdiv exps rev)).setCol
        "Volatility_Score" (ni.map fun x =>
          cdiv (cabs (csub x (cmean ni))) (cstd ni))).col "Company"
          = some comp := by
      rw [col_setCol_ne hw1 hvol (by decide),
        col_setCol_ne hw hd2r (by decide)]
      exact hc
    have hcols1 : (df.setCol "Debt_to_Revenue"
        (List.zipWith cdiv exps rev)).columns =
        df.columns ++ ["Debt_to_Revenue"] :=
      setCol_columns_of_not_mem hd2notin
    have hvs1 : "Volatility_Score" ∉
        (df.setCol "Debt_to_Revenue" (List.zipWith cdiv exps rev)).columns := by
      rw [hcols1]
      simp only [List.mem_append, List.mem_singleton]
      rintro (hmem | hbad)
      · exact hvsnotin hmem
      · exact absurd hbad (by decide)
    have hcols2 : ((df.setCol "Debt_to_Revenue"
        (List.zipWith cdiv exps rev)).setCol "Volatility_Score"
        (ni.map fun x => cdiv (cabs (csub x (cmean ni))) (cstd ni))).columns =
        df.columns ++ ["Debt_to_Revenue", "Volatility_Score"] := by
      rw [setCol_columns_of_not_mem hvs1, hcols1, List.append_assoc]
      rfl
    unfold generate_risk_assessment
    split
    · rename_i heq
      rw [he] at heq
      cases heq
    · rename_i exps2 heq
      rw [he] at heq
      injection heq with heq
      subst heq
      split
      · rename_i heq2
        rw [hr] at heq2
        cases heq2
      · rename_i rev2 heq2
        rw [hr] at heq2
        injection heq2 with heq2
        subst heq2
        split
        · rename_i heq3
          rw [hni1] at heq3
          cases heq3
        · rename_i ni2 heq3
          rw [hni1] at heq3
          injection heq3 with heq3
          subst heq3
          split
          · rename_i heq4
            rw [hcomp] at heq4
            cases heq4
          · rename_i comp2 heq4
            exact ⟨_, _, rfl, hcols2⟩

/-- Witness for C9: the risk-assessment part at the spec's example table,
which gains exactly the two derived columns. -/
theorem c9_risk_assessment_mutates_witness :
    ∃ (r : RiskAssessment) (d : DataFrame),
      generate_risk_assessment dfAB = .ok (r, d) ∧
      d.columns = dfAB.columns ++ ["Debt_to_Revenue", "Volatility_Score"] :=
  c9_risk_assessment_mutates.2.2.2 dfAB (by unfold DataFrame.WF; decide)
    [.str "A", .str "B"] [.num 100, .num 200] [.num 90, .num 100]
    [.num 10, .num 100] rfl rfl rfl rfl (by decide) (by decide)

/-! ### C2 — one insight row per company; the Profit_Margin formula -/

/-- The sum of the `vals` entries on rows whose key cell equals `k`: the
exact per-group column sum `groupby(...).agg('sum')` computes. -/
def groupSum (keyCol : List Cell) (vals : List ℚ) (k : Cell) : ℚ :=
  (((keyCol.zip vals).filter fun p => decide (p.1 = k)).map fun p => p.2).sum

theorem insortBy_perm (le : α → α → Bool) (a : α) (l : List α) :
    (insortBy le a l).Perm (a :: l) := by
  induction l with
  | nil => simp [insortBy]
  | cons b bs ih =>
    simp only [insortBy]
    split
    · exact List.Perm.refl _
    · exact (ih.cons b).trans (List.Perm.swap a b bs)

theorem sortBy_perm (le : α → α → Bool) (l : List α) :
    (sortBy le l).Perm l := by
  induction l with
  | nil => simp [sortBy]
  | cons a as ih => exact (insortBy_perm le a (sortBy le as)).trans (ih.cons a)

theorem selectBy_map_num :
    ∀ (keyCol : List Cell) (vals : List ℚ) (k : Cell),
      selectBy keyCol k (vals.map Cell.num) =
        (((keyCol.zip vals).filter fun p => decide (p.1 = k)).map
          fun p => p.2).map Cell.num
  | [], _, _ => rfl
  | _ :: _, [], _ => rfl
  | c :: keyCol, v :: vals, k => by
    have ih := selectBy_map_num keyCol vals k
    simp only [selectBy] at ih
    simp only [selectBy, List.map_cons, List.zip_cons_cons, List.filter_cons,
      decide_eq_true_eq]
    by_cases hck : c = k
    · rw [if_pos hck, if_pos hck]
      simp only [List.map_cons]
      rw [ih]
    · rw [if_neg hck, if_neg hck]
      rw [ih]

theorem csum_selectBy (keyCol : List Cell) (vals : List ℚ) (k : Cell) :
    csum (selectBy keyCol k (vals.map Cell.num)) =
      Cell.num (groupSum keyCol vals k) := by
  rw [selectBy_map_num, csum_map_num]
  rfl

theorem cround2_num (a : ℚ) : cround2 (Cell.num a) = Cell.num (round2 a) := rfl

theorem companyRowFor_company (comp rev exps ni mc : List Cell) (k : Cell) :
    (companyRowFor comp rev exps ni mc k).company = k := rfl

theorem groupKeys_nodup (l : List Cell) : (groupKeys l).Nodup :=
  ((sortBy_perm cellKeyLE _).nodup_iff).2 (List.nodup_dedup _)

theorem mem_groupKeys_iff {l : List Cell} (hstr : ∀ c ∈ l, c.isStr = true)
    {c : Cell} : c ∈ groupKeys l ↔ c ∈ l := by
  unfold groupKeys
  rw [(sortBy_perm cellKeyLE _).mem_iff, List.mem_dedup, List.mem_filter]
  constructor
  · exact fun h => h.1
  · intro h
    refine ⟨h, ?_⟩
    rw [decide_eq_true_eq]
    intro hc
    rw [hc] at h
    have hs := hstr _ h
    simp [Cell.isStr] at hs

/-- The table that refutes C2's universality: all four required columns
present, but no `Market_Cap`. -/
def dfNoMC : DataFrame :=
  ⟨["Company", "Revenue", "Expenses", "Net_Income"],
   [[.str "A", .num 1, .num 1, .num 1]]⟩

/-- The table that refutes C2's margin formula: with a net-income sum of
0.006, the `.round(2)` applied to the aggregated frame changes the sum to
0.01 before the margin is derived. -/
def dfRound : DataFrame :=
  ⟨["Company", "Revenue", "Expenses", "Net_Income", "Market_Cap"],
   [[.str "A", .num 1, .num 1, .num (3/500), .num 1]]⟩

/-- Counterexample to C2 as stated.  First, a table with the four
required columns but no `Market_Cap` column makes `get_company_insights`
raise (the `.agg` dict unconditionally names `Market_Cap`) instead of
returning one row per company.  Second, even with `Market_Cap` present,
the returned `Profit_Margin` is computed from the *rounded* sums: with
net income 0.006 and revenue 1 the code yields 1.0 while the claimed
`round2(sum/sum*100)` is 0.6. -/
theorem c2_counterexample :
    get_company_insights dfNoMC = .error (.keyError "Market_Cap") ∧
    (get_company_insights dfRound).map
      (fun p => p.1.map fun r => r.profit_margin) = .ok [Cell.num 1] ∧
    Cell.num 1 ≠ Cell.num (round2 (3/500 / 1 * 100)) := by
  refine ⟨rfl, ?_, ?_⟩
  · show Except.map _ (get_company_insights dfRound) = _
    rw [show get_company_insights dfRound =
        .ok ([companyRowFor [Cell.str "A"] [Cell.num 1] [Cell.num 1]
          [Cell.num (3/500)] [Cell.num 1] (Cell.str "A")], dfRound) from rfl]
    simp only [Except.map, List.map_cons, List.map_nil, Except.ok.injEq,
      List.cons.injEq, and_true]
    show cround2 (cmulQ (cdiv (cround2 (csum (selectBy [Cell.str "A"]
        (Cell.str "A") [Cell.num (3/500)])))
      (cround2 (csum (selectBy [Cell.str "A"] (Cell.str "A")
        [Cell.num 1])))) 100) = Cell.num 1
    rw [show selectBy [Cell.str "A"] (Cell.str "A") [Cell.num (3/500)] =
        [Cell.num (3/500)] from rfl,
      show selectBy [Cell.str "A"] (Cell.str "A") [Cell.num 1] =
        [Cell.num 1] from rfl]
    rw [show csum [Cell.num (3/500)] = Cell.num (3/500) by
        simp [csum, numsOf],
      show csum [Cell.num 1] = Cell.num 1 by simp [csum, numsOf]]
    rw [cround2_num, cround2_num]
    rw [show round2 (3/500) = 1/100 by
        rw [round2, roundQ]
        norm_num
        rw [show Int.fdiv 11 10 = 1 from by decide]
        norm_num,
      show round2 (1 : ℚ) = 1 by
        rw [round2, roundQ]
        norm_num
        rw [show Int.fdiv 201 2 = 100 from by decide]
        norm_num]
    rw [cdiv_num_num (by norm_num), cmulQ_num, cround2_num]
    rw [show round2 (1/100 / 1 * 100) = 1 by
        rw [round2, roundQ]
        norm_num
        rw [show Int.fdiv 201 2 = 100 from by decide]
        norm_num]
  · intro h
    rw [Cell.num.injEq] at h
    rw [show round2 (3/500 / 1 * 100) = 3/5 by
        rw [round2, roundQ]
        norm_num
        rw [show Int.fdiv 121 2 = 60 from by decide]
        norm_num] at h
    norm_num at h

theorem map_companyRowFor_company (a b c d e : List Cell)
    (keys : List Cell) :
    ((keys.map (companyRowFor a b c d e)).map fun r => r.company) = keys := by
  induction keys with
  | nil => rfl
  | cons k ks ih => simp only [List.map_cons, companyRowFor_company, ih]

/-- C2 as amended: on a loaded table that has the four required columns
*and* a `Market_Cap` column, `get_company_insights` returns exactly one
row per distinct company name, and each row's `Profit_Margin` equals the
company's net-income sum divided by its revenue sum times 100 *with both
sums first rounded to 2 decimals* (and the quotient rounded again), the
divisor being nonzero. -/
theorem c2_amended (df : DataFrame) (comp mc : List Cell)
    (revs exps nis : List ℚ)
    (hcstr : ∀ c ∈ comp, c.isStr = true)
    (hc : df.col "Company" = some comp)
    (hr : df.col "Revenue" = some (revs.map Cell.num))
    (he : df.col "Expenses" = some (exps.map Cell.num))
    (hn : df.col "Net_Income" = some (nis.map Cell.num))
    (hm : df.col "Market_Cap" = some mc)
    (hnz : ∀ k ∈ comp, round2 (groupSum comp revs k) ≠ 0) :
    ∃ rows : List CompanyRow,
      get_company_insights df = .ok (rows, df) ∧
      (rows.map fun r => r.company).Nodup ∧
      (∀ c : Cell, (c ∈ rows.map fun r => r.company) ↔ c ∈ comp) ∧
      ∀ r ∈ rows,
        r.profit_margin = Cell.num (round2
          (round2 (groupSum comp nis r.company) /
            round2 (groupSum comp revs r.company) * 100)) := by
  unfold get_company_insights
  rw [hc, hr, he, hn, hm]
  refine ⟨_, rfl, ?_, ?_, ?_⟩
  · rw [map_companyRowFor_company]
    exact groupKeys_nodup comp
  · intro c
    rw [map_companyRowFor_company]
    exact mem_groupKeys_iff hcstr
  · intro r hrmem
    obtain ⟨k, hk, rfl⟩ := List.mem_map.1 hrmem
    rw [companyRowFor_company]
    show cround2 (cmulQ (cdiv
      (cround2 (csum (selectBy comp k (nis.map Cell.num))))
      (cround2 (csum (selectBy comp k (revs.map Cell.num))))) 100) = _
    rw [csum_selectBy, csum_selectBy, cround2_num, cround2_num]
    have hk' : k ∈ comp := (mem_groupKeys_iff hcstr).1 hk
    rw [cdiv_num_num (hnz k hk'), cmulQ_num, cround2_num]

/-- The spec's example rows with a `Market_Cap` column added (so that the
`.agg` call succeeds). -/
def dfABmc : DataFrame :=
  ⟨["Company", "Revenue", "Expenses", "Net_Income", "Market_Cap"],
   [[.str "A", .num 100, .num 90, .num 10, .num 1],
    [.str "B", .num 200, .num 100, .num 100, .num 1]]⟩

/-- Witness for the amended C2 at the spec's example table. -/
theorem c2_amended_witness :
    ∃ rows : List CompanyRow,
      get_company_insights dfABmc = .ok (rows, dfABmc) ∧
      (rows.map fun r => r.company).Nodup ∧
      (∀ c : Cell, (c ∈ rows.map fun r => r.company) ↔
        c ∈ [Cell.str "A", Cell.str "B"]) ∧
      ∀ r ∈ rows,
        r.profit_margin = Cell.num (round2
          (round2 (groupSum [Cell.str "A", Cell.str "B"] [10, 100] r.company) /
            round2 (groupSum [Cell.str "A", Cell.str "B"] [100, 200]
              r.company) * 100)) := by
  apply c2_amended dfABmc [Cell.str "A", Cell.str "B"]
    [Cell.num 1, Cell.num 1] [100, 200] [90, 100] [10, 100]
    (by decide) rfl rfl rfl rfl rfl
  have gA : groupSum [Cell.str "A", Cell.str "B"] [(100 : ℚ), 200]
      (Cell.str "A") = 100 := by
    norm_num [groupSum, List.zip, List.zipWith, List.filter_cons]
    rw [if_neg (show ¬("B" : String) = "A" from by decide)]
    norm_num
  have gB : groupSum [Cell.str "A", Cell.str "B"] [(100 : ℚ), 200]
      (Cell.str "B") = 200 := by
    norm_num [groupSum, List.zip, List.zipWith, List.filter_cons]
    rw [if_neg (show ¬("A" : String) = "B" from by decide)]
    norm_num
  intro k hk
  simp only [List.mem_cons, List.not_mem_nil, or_false] at hk
  rcases hk with rfl | rfl
  · rw [gA, round2, roundQ]
    norm_num
    rw [show Int.fdiv 20001 2 = 10000 from by decide]
    norm_num
  · rw [gB, round2, roundQ]
    norm_num
    rw [show Int.fdiv 40001 2 = 20000 from by decide]
    norm_num

end FinReport
